import Mathlib

/-!
Verification of the Cattel_Backend livestock-registry core: a shallow
embedding of the Cattle / TransferRequest / IdentificationRequest entities
and their controller operations, translated from the JavaScript source
(models/Cattle.js, models/TransferRequest.js, models/IdentificationRequest.js,
the admin controller, the cattle controller, the user controller and the
identification controller).  Machine integers are modelled as Nat, dates as
epoch milliseconds, MongoDB documents as Lean structures, and HTTP error
responses as Except Nat values carrying the status code the handler sends.
-/

deriving instance DecidableEq for Except

namespace CattelBackend

/-- Lifecycle status of a cattle record (Cattle.js: status enum). -/
inductive CattleStatus
  | active
  | archive
  | transit
deriving DecidableEq

/-- Verification sub-state (Cattle.js: verification.status enum of the
workflow schema). -/
inductive VerificationStatus
  | pending_regional_review
  | denied_by_regional
  | forwarded_to_m_admin
  | pending_m_admin_review
  | approved
  | rejected
deriving DecidableEq

/-- Regional admin action recorded on review (Cattle.js:
verification.regionalAdminAction enum). -/
inductive RegionalAction
  | forwarded
  | denied
deriving DecidableEq

/-- Admin roles that reach the verification controllers (roleMiddleware /
adminController). -/
inductive Role
  | regional_admin
  | m_admin
  | super_admin
deriving DecidableEq

/-- Per-category image counts of a cattle document.  Only the lengths of the
six image arrays matter to the embedded logic, so each category is its
count. -/
structure ImageCounts where
  muzzle : Nat
  face : Nat
  leftSide : Nat
  rightSide : Nat
  fullBodyLeft : Nat
  fullBodyRight : Nat
deriving DecidableEq

/-- Total image count (Cattle.js virtual totalImages). -/
def ImageCounts.total (i : ImageCounts) : Nat :=
  i.muzzle + i.face + i.leftSide + i.rightSide + i.fullBodyLeft + i.fullBodyRight

/-- The exact category counts the spec requires: 3 muzzle, 3 face, 3 left,
3 right, 1 full body left, 1 full body right. -/
def fullImageSet : ImageCounts :=
  { muzzle := 3, face := 3, leftSide := 3, rightSide := 3
    fullBodyLeft := 1, fullBodyRight := 1 }

/-- A cattle document: the fields of Cattle.js (workflow schema) that the
verification, transfer and archive logic reads or writes.  Object ids are
Nat, dates are epoch ms. -/
structure Cattle where
  owner : Nat
  status : CattleStatus
  verificationStatus : VerificationStatus
  reviewedByRegionalAdmin : Option Nat
  regionalReviewedAt : Option Nat
  regionalAdminAction : Option RegionalAction
  regionalDenialReason : Option String
  verifiedBy : Option Nat
  verifiedAt : Option Nat
  rejectionReason : Option String
  forwardedToMAdminAt : Option Nat
  locationState : String
  transferHistory : List Nat
  archivedAt : Option Nat
  archivedBy : Option Nat
  images : ImageCounts
  temporaryId : Option String
deriving DecidableEq

/-- Cattle.js methods.forwardToMAdmin: stamps reviewer, timestamps and the
forwarded action, and moves verification to forwarded_to_m_admin. -/
def Cattle.forwardToMAdmin (c : Cattle) (regionalAdminId now : Nat) : Cattle :=
  { c with
    verificationStatus := VerificationStatus.forwarded_to_m_admin
    reviewedByRegionalAdmin := some regionalAdminId
    regionalReviewedAt := some now
    regionalAdminAction := some RegionalAction.forwarded
    forwardedToMAdminAt := some now }

/-- Cattle.js methods.denyByRegionalAdmin: records the denial and moves
verification to denied_by_regional. -/
def Cattle.denyByRegionalAdmin (c : Cattle) (regionalAdminId : Nat)
    (reason : String) (now : Nat) : Cattle :=
  { c with
    verificationStatus := VerificationStatus.denied_by_regional
    reviewedByRegionalAdmin := some regionalAdminId
    regionalReviewedAt := some now
    regionalAdminAction := some RegionalAction.denied
    regionalDenialReason := some reason }

/-- Cattle.js methods.approve: moves verification to approved, lifecycle to
active, and clears the temporary id. -/
def Cattle.approve (c : Cattle) (mAdminId now : Nat) : Cattle :=
  { c with
    verificationStatus := VerificationStatus.approved
    verifiedBy := some mAdminId
    verifiedAt := some now
    status := CattleStatus.active
    temporaryId := none }

/-- Cattle.js methods.reject: records the rejection; the lifecycle status is
left untouched. -/
def Cattle.reject (c : Cattle) (mAdminId : Nat) (reason : String)
    (now : Nat) : Cattle :=
  { c with
    verificationStatus := VerificationStatus.rejected
    verifiedBy := some mAdminId
    verifiedAt := some now
    rejectionReason := some reason }

/-- Cattle.js methods.archive: lifecycle to archive with bookkeeping. -/
def Cattle.archive (c : Cattle) (userId now : Nat) : Cattle :=
  { c with
    status := CattleStatus.archive
    archivedAt := some now
    archivedBy := some userId }

/-- Cattle.js methods.restore: lifecycle re-derived from the verification
status (active when approved, otherwise transit), bookkeeping cleared. -/
def Cattle.restore (c : Cattle) : Cattle :=
  { c with
    status :=
      if c.verificationStatus = VerificationStatus.approved then
        CattleStatus.active
      else
        CattleStatus.transit
    archivedAt := none
    archivedBy := none }

/-- A freshly persisted cattle document in the initial state the workflow
schema documents for registration: lifecycle transit, verification
pending_regional_review (the schema default), location copied from the
owner address, and a temporary id. -/
def Cattle.registered (owner : Nat) (imgs : ImageCounts) (loc : String)
    (tempId : String) : Cattle :=
  { owner := owner
    status := CattleStatus.transit
    verificationStatus := VerificationStatus.pending_regional_review
    reviewedByRegionalAdmin := none
    regionalReviewedAt := none
    regionalAdminAction := none
    regionalDenialReason := none
    verifiedBy := none
    verifiedAt := none
    rejectionReason := none
    forwardedToMAdminAt := none
    locationState := loc
    transferHistory := []
    archivedAt := none
    archivedBy := none
    images := imgs
    temporaryId := some tempId }

/-! Controller layer (adminController forward / deny / approve / reject,
cattleController archive / restore).  Each handler looks the document up
with a findOne query whose filter encodes both the state precondition and,
for the region-scoped role, the region restriction; a failed lookup is a
404 response.  The embedded functions receive the document stored under the
requested id (none when no such document exists) and return either the
mutated document or the HTTP error status the handler responds with. -/

/-- adminController.forwardCattleToMAdmin: query requires
verification.status = pending_regional_review and, when the caller is a
regional admin, location.state = the caller assigned region; a miss is a
404 response. -/
def forwardCattleToMAdminCtrl (role : Role) (adminRegion : String)
    (co : Option Cattle) (adminId now : Nat) : Except Nat Cattle :=
  match co with
  | none => Except.error 404
  | some c =>
    if c.verificationStatus = VerificationStatus.pending_regional_review
        ∧ (role = Role.regional_admin → c.locationState = adminRegion) then
      Except.ok (c.forwardToMAdmin adminId now)
    else
      Except.error 404

/-- adminController.denyCattleByRegionalAdmin: a missing reason is a 400
response before the lookup; the lookup filter is as for forward. -/
def denyCattleByRegionalAdminCtrl (role : Role) (adminRegion : String)
    (co : Option Cattle) (adminId : Nat) (reason : String)
    (now : Nat) : Except Nat Cattle :=
  if reason = "" then Except.error 400
  else
    match co with
    | none => Except.error 404
    | some c =>
      if c.verificationStatus = VerificationStatus.pending_regional_review
          ∧ (role = Role.regional_admin → c.locationState = adminRegion) then
        Except.ok (c.denyByRegionalAdmin adminId reason now)
      else
        Except.error 404

/-- adminController.approveCattleByMAdmin: query requires
verification.status = forwarded_to_m_admin and, when the caller is an
m_admin, the region restriction; a miss is a 404 response. -/
def approveCattleByMAdminCtrl (role : Role) (adminRegion : String)
    (co : Option Cattle) (adminId now : Nat) : Except Nat Cattle :=
  match co with
  | none => Except.error 404
  | some c =>
    if c.verificationStatus = VerificationStatus.forwarded_to_m_admin
        ∧ (role = Role.m_admin → c.locationState = adminRegion) then
      Except.ok (c.approve adminId now)
    else
      Except.error 404

/-- adminController.rejectCattleByMAdmin: a missing reason is a 400
response; the lookup filter is as for approve. -/
def rejectCattleByMAdminCtrl (role : Role) (adminRegion : String)
    (co : Option Cattle) (adminId : Nat) (reason : String)
    (now : Nat) : Except Nat Cattle :=
  if reason = "" then Except.error 400
  else
    match co with
    | none => Except.error 404
    | some c =>
      if c.verificationStatus = VerificationStatus.forwarded_to_m_admin
          ∧ (role = Role.m_admin → c.locationState = adminRegion) then
        Except.ok (c.reject adminId reason now)
      else
        Except.error 404

/-- cattleController.archiveCattle: the lookup filter requires the caller to
own the document; an already archived document is a 400 response. -/
def archiveCattleCtrl (co : Option Cattle) (userId now : Nat) :
    Except Nat Cattle :=
  match co with
  | none => Except.error 404
  | some c =>
    if c.owner = userId then
      if c.status = CattleStatus.archive then Except.error 400
      else Except.ok (c.archive userId now)
    else
      Except.error 404

/-- cattleController.restoreCattle: owner lookup, then a 400 response unless
the document is archived. -/
def restoreCattleCtrl (co : Option Cattle) (userId : Nat) :
    Except Nat Cattle :=
  match co with
  | none => Except.error 404
  | some c =>
    if c.owner = userId then
      if c.status = CattleStatus.archive then Except.ok c.restore
      else Except.error 400
    else
      Except.error 404

/-! Transfer workflow (models/TransferRequest.js and the user / cattle
controllers). -/

/-- Transfer request status (TransferRequest.js: status enum). -/
inductive TransferStatus
  | pending
  | accepted
  | rejected
  | cancelled
deriving DecidableEq

/-- A transfer request document: the fields TransferRequest.js reads or
writes in its accept / reject / cancel methods. -/
structure Transfer where
  cattle : Nat
  fromOwner : Nat
  toOwner : Nat
  status : TransferStatus
  respondedAt : Option Nat
  responseMessage : Option String
  completedAt : Option Nat
  cancelledBy : Option Nat
  cancelledAt : Option Nat
  cancellationReason : Option String
deriving DecidableEq

/-- User.findByIdAndUpdate with a pull of the cattle id from the cattle
array: every occurrence is removed from the matching user entry; a missing
user id is a no-op, exactly as in MongoDB. -/
def pullCattle (holdings : List (Nat × List Nat)) (userId cid : Nat) :
    List (Nat × List Nat) :=
  holdings.map fun e =>
    if e.fst = userId then (e.fst, e.snd.filter (fun x => ¬ x = cid)) else e

/-- User.findByIdAndUpdate with an addToSet of the cattle id: appended only
when absent; a missing user id is a no-op. -/
def addToSetCattle (holdings : List (Nat × List Nat)) (userId cid : Nat) :
    List (Nat × List Nat) :=
  holdings.map fun e =>
    if e.fst = userId then
      (e.fst, if cid ∈ e.snd then e.snd else e.snd ++ [cid])
    else e

/-- The persisted documents TransferRequest.accept touches: the transfer
document itself, the cattle document it references (none when the reference
does not resolve) and the cattle arrays of the user documents. -/
structure TransferStore where
  transfer : Transfer
  cattleDoc : Option Cattle
  holdings : List (Nat × List Nat)
deriving DecidableEq

/-- Outcome of running TransferRequest.accept: whether an exception
propagated out of the method, and the state the database was left in. -/
structure AcceptOutcome where
  thrown : Bool
  store : TransferStore
deriving DecidableEq

/-- TransferRequest.js methods.accept, with a failure injection point.
The method mutates the transfer in memory, then issues up to four
database writes in program order: the cattle save (history push and owner
change), the pull from the old owner cattle array, the addToSet on the new
owner cattle array, and finally the save of the transfer document itself.
When the referenced cattle does not resolve the only write is the transfer
save.  failAt = some k makes the write with index k (counting the writes
actually issued, from 0) throw after the earlier writes have committed,
matching an await that rejects mid-method; nothing is rolled back because
the source uses no transaction. -/
def acceptRun (failAt : Option Nat) (st : TransferStore) (tid now : Nat) :
    AcceptOutcome :=
  if ¬ st.transfer.status = TransferStatus.pending then
    { thrown := true, store := st }
  else
    let tr1 : Transfer :=
      { st.transfer with
        status := TransferStatus.accepted
        respondedAt := some now
        completedAt := some now }
    match st.cattleDoc with
    | some cd =>
      let oldOwnerId := cd.owner
      let cd1 : Cattle :=
        { cd with
          transferHistory := cd.transferHistory ++ [tid]
          owner := st.transfer.toOwner }
      if failAt = some 0 then { thrown := true, store := st }
      else
        let st1 : TransferStore := { st with cattleDoc := some cd1 }
        if failAt = some 1 then { thrown := true, store := st1 }
        else
          let st2 : TransferStore :=
            { st1 with
              holdings := pullCattle st1.holdings oldOwnerId st.transfer.cattle }
          if failAt = some 2 then { thrown := true, store := st2 }
          else
            let st3 : TransferStore :=
              { st2 with
                holdings :=
                  addToSetCattle st2.holdings st.transfer.toOwner
                    st.transfer.cattle }
            if failAt = some 3 then { thrown := true, store := st3 }
            else { thrown := false, store := { st3 with transfer := tr1 } }
    | none =>
      if failAt = some 0 then { thrown := true, store := st }
      else { thrown := false, store := { st with transfer := tr1 } }

/-- Existing-pending-transfer query of cattleController
initiateCattleTransfer (TransferRequest.findOne on cattle id and status
pending). -/
def pendingExistsFor (store : List Transfer) (cid : Nat) : Bool :=
  store.any fun t =>
    t.cattle = cid ∧ t.status = TransferStatus.pending

/-- Number of pending transfer requests stored for a cattle id. -/
def countPendingFor (store : List Transfer) (cid : Nat) : Nat :=
  (store.filter fun t =>
    t.cattle = cid ∧ t.status = TransferStatus.pending).length

/-- The document TransferRequest.create persists for a new transfer
(status defaults to pending). -/
def newPendingTransfer (cid fromO toO : Nat) : Transfer :=
  { cattle := cid
    fromOwner := fromO
    toOwner := toO
    status := TransferStatus.pending
    respondedAt := none
    responseMessage := none
    completedAt := none
    cancelledBy := none
    cancelledAt := none
    cancellationReason := none }

/-- cattleController.initiateCattleTransfer run to completion with no
interleaving: the cattle lookup filters on owner and active lifecycle (404
on a miss), the receiving owner must exist (404), an existing pending
transfer for the cattle is rejected with a 400 response, the schema
pre-save hook rejects a self transfer (surfaced as a 500 by the error
middleware), and otherwise the new pending transfer is inserted.  There is
no unique index guarding the insert. -/
def initiateCattleTransfer (store : List Transfer) (cattleRefId : Nat)
    (cattleO : Option Cattle) (userId toOwnerId : Nat)
    (newOwnerExists : Bool) : Except Nat (List Transfer) :=
  match cattleO with
  | none => Except.error 404
  | some c =>
    if c.owner = userId ∧ c.status = CattleStatus.active then
      if newOwnerExists then
        if pendingExistsFor store cattleRefId then Except.error 400
        else if userId = toOwnerId then Except.error 500
        else Except.ok (store ++ [newPendingTransfer cattleRefId userId toOwnerId])
      else Except.error 404
    else Except.error 404

/-- Holds when a result of the sequential initiate preserves the
at-most-one-pending bound for the cattle. -/
def invAfterInitiate (r : Except Nat (List Transfer)) (cid : Nat) : Prop :=
  match r with
  | Except.ok s => countPendingFor s cid ≤ 1
  | Except.error _ => True

/-! Interleaved execution of two concurrent initiate requests on the same
cattle.  Each request performs two awaited database operations that other
requests can interleave with: the pre-query for an existing pending
transfer, then the unguarded insert.  A program counter tracks how far a
request has progressed. -/

/-- Program counter of one in-flight initiate request. -/
inductive InitPC
  | atQuery
  | checked
  | created
  | rejectedDup
deriving DecidableEq

/-- Advance one in-flight initiate request by one awaited database
operation, as written in initiateCattleTransfer: the pre-query moves to
checked (or to the duplicate rejection) and the insert appends the new
pending transfer unconditionally. -/
def stepInitiate (cid fromO toO : Nat) (pc : InitPC)
    (store : List Transfer) : InitPC × List Transfer :=
  match pc with
  | InitPC.atQuery =>
    if pendingExistsFor store cid then (InitPC.rejectedDup, store)
    else (InitPC.checked, store)
  | InitPC.checked =>
    (InitPC.created, store ++ [newPendingTransfer cid fromO toO])
  | pc => (pc, store)

/-- Shared state of two concurrent initiate requests for the same cattle. -/
structure RaceConfig where
  store : List Transfer
  pcA : InitPC
  pcB : InitPC
deriving DecidableEq

/-- One scheduler step: pick which of the two requests performs its next
database operation. -/
def raceStep (cid fromA toA fromB toB : Nat) (pickA : Bool)
    (cfg : RaceConfig) : RaceConfig :=
  if pickA then
    let r := stepInitiate cid fromA toA cfg.pcA cfg.store
    { cfg with pcA := r.fst, store := r.snd }
  else
    let r := stepInitiate cid fromB toB cfg.pcB cfg.store
    { cfg with pcB := r.fst, store := r.snd }

/-- Run a schedule of interleaved steps of the two requests. -/
def runRace (cid fromA toA fromB toB : Nat) (sched : List Bool)
    (cfg : RaceConfig) : RaceConfig :=
  sched.foldl (fun c pickA => raceStep cid fromA toA fromB toB pickA c) cfg

/-! Identification request tracker (models/IdentificationRequest.js and
identificationController.js). -/

/-- Identification request status (IdentificationRequest.js: status
enum). -/
inductive IdStatus
  | pending
  | processing
  | completed
  | failed
  | cancelled
deriving DecidableEq

/-- An identification request document: the fields the complete flow reads
or writes. -/
structure IdRequest where
  user : Nat
  status : IdStatus
  startedAt : Option Nat
  completedAt : Option Nat
  processedBy : Option Nat
  timeTaken : Option Nat
  resultFound : Bool
  resultCattle : Option Nat
  resultCattleId : Option String
  resultConfidence : Option Nat
  resultMessage : Option String
  identifiedAt : Option Nat
  adminNotes : Option String
deriving DecidableEq

/-- The result payload completeWithResult spreads into this.result. -/
structure ResultData where
  found : Bool
  cattle : Option Nat
  cattleId : Option String
  confidence : Option Nat
  message : Option String
deriving DecidableEq

/-- IdentificationRequest.js methods.completeWithResult: status to
completed, completion time stamped, elapsed seconds computed when a start
time exists, and the result object overwritten by the payload with a fresh
identifiedAt. -/
def IdRequest.completeWithResult (rq : IdRequest) (rd : ResultData)
    (now : Nat) : IdRequest :=
  { rq with
    status := IdStatus.completed
    completedAt := some now
    timeTaken := rq.startedAt.map (fun s => (now - s) / 1000)
    resultFound := rd.found
    resultCattle := rd.cattle
    resultCattleId := rd.cattleId
    resultConfidence := rd.confidence
    resultMessage := rd.message
    identifiedAt := some now }

/-- Cattle.findOne on an id over the cattle collection, returning the
cattleId string of the matching document. -/
def lookupCattle (coll : List (Nat × String)) (cid : Nat) : Option String :=
  (coll.find? fun e => e.fst = cid).map (fun e => e.snd)

/-- JavaScript truthiness of an optional string (undefined and the empty
string are falsy). -/
def jsTruthyStr : Option String → Bool
  | none => false
  | some s => ¬ s = ""

/-- The message stored by the complete handler:
message or (found ? ... : ...), with JavaScript falsiness for the empty
string. -/
def completeMessage (found : Bool) (messageParam : Option String) : String :=
  let dflt :=
    if found then "Cattle identified successfully"
    else "No match found in database"
  match messageParam with
  | none => dflt
  | some m => if m = "" then dflt else m

/-- confidence or null, with JavaScript falsiness for 0. -/
def jsOrNullNat : Option Nat → Option Nat
  | none => none
  | some n => if n = 0 then none else some n

/-- adminNotes update of the complete handler: only a truthy value is
written back. -/
def applyAdminNotes (rq : IdRequest) (notesParam : Option String) :
    IdRequest :=
  if jsTruthyStr notesParam then { rq with adminNotes := notesParam } else rq

/-- Response and persisted request state of the complete handler.  The
request field is the document as it stands in the database when the
response (or the propagated exception) leaves the handler. -/
structure IdCtrlOutcome where
  response : Except Nat Unit
  request : Option IdRequest
deriving DecidableEq

/-- identificationController.completeIdentificationRequest: 400 when found
is absent, 404 when the request is absent, 400 from a terminal status; the
cattle existence check runs only when found is truthy and a cattle id was
supplied (404 on a miss, request untouched).  Otherwise completeWithResult
persists the result; when found is true but no cattle document was
resolved, the notification interpolation dereferences null and the handler
throws a 500 after the request was already saved.  The admin statistics
update and the identification history push on the cattle document do not
touch the request and are not modelled. -/
def completeIdentificationRequestCtrl (coll : List (Nat × String))
    (foundParam : Option Bool) (cattleIdParam : Option Nat)
    (messageParam adminNotesParam : Option String)
    (confidenceParam : Option Nat) (rqO : Option IdRequest)
    (now : Nat) : IdCtrlOutcome :=
  match foundParam with
  | none => { response := Except.error 400, request := rqO }
  | some found =>
    match rqO with
    | none => { response := Except.error 404, request := none }
    | some rq =>
      if rq.status = IdStatus.pending ∨ rq.status = IdStatus.processing then
        match (if found then cattleIdParam else none) with
        | some cid =>
          match lookupCattle coll cid with
          | none => { response := Except.error 404, request := some rq }
          | some foundCattleId =>
            let rq1 := rq.completeWithResult
              { found := found
                cattle := some cid
                cattleId := some foundCattleId
                confidence := jsOrNullNat confidenceParam
                message := some (completeMessage found messageParam) } now
            let rq2 := applyAdminNotes rq1 adminNotesParam
            { response := Except.ok (), request := some rq2 }
        | none =>
          let rq1 := rq.completeWithResult
            { found := found
              cattle := none
              cattleId := none
              confidence := jsOrNullNat confidenceParam
              message := some (completeMessage found messageParam) } now
          let rq2 := applyAdminNotes rq1 adminNotesParam
          if found then { response := Except.error 500, request := some rq2 }
          else { response := Except.ok (), request := some rq2 }
      else
        { response := Except.error 400, request := some rq }

/-! Registration (cattleController.registerCattle) and the schema enum of
the workflow Cattle model. -/

/-- The verification status enum of the workflow Cattle schema
(Cattle.js). -/
def cattleVerificationStatusEnum : List String :=
  ["pending_regional_review", "denied_by_regional", "forwarded_to_m_admin",
   "pending_m_admin_review", "approved", "rejected"]

/-- The literal verification status string registerCattle passes to
Cattle.create. -/
def registerCattleVerificationStatusValue : String := "pending"

/-- Mongoose enum validation over a persisted string path: the value must
be one of the enum members. -/
def mongooseEnumValidates (vals : List String) (v : String) : Bool :=
  vals.contains v

/-- Outcome of the Cattle.create call in registerCattle for the
verification status path: the value is persisted only when it passes enum
validation, otherwise create rejects with a mongoose ValidationError. -/
def registerCattleVerificationOutcome : Except String String :=
  if mongooseEnumValidates cattleVerificationStatusEnum
      registerCattleVerificationStatusValue then
    Except.ok registerCattleVerificationStatusValue
  else
    Except.error "ValidationError"

/-- Cattle.js pre-save turnaround deadline: submission time plus the
configured number of hours (VERIFICATION_TURNAROUND_HOURS, default 48) in
milliseconds. -/
def turnaroundDeadline (submittedAtMs : Nat) (envHours : Option Nat) : Nat :=
  submittedAtMs + (envHours.getD 48) * 60 * 60 * 1000

/-! Request id generation (IdentificationRequest.js pre-save hook). -/

/-- JavaScript String.prototype.slice with a negative start of -8: the last
eight characters, or the whole string when shorter. -/
def sliceLastEight (s : String) : String :=
  s.drop (s.length - 8)

/-- JavaScript String.prototype.padStart: pad on the left up to the target
length; a string already at least that long is returned unchanged. -/
def jsPadStart (s : String) (n : Nat) (c : Char) : String :=
  if n ≤ s.length then s
  else String.mk (List.replicate (n - s.length) c) ++ s

/-- Math.floor(Math.random() + 10000): the random draw r satisfies
0 ≤ r < 1. -/
def randomComponent (r : ℚ) : ℤ :=
  Int.floor (r + 10000)

/-- The generated request id: IDR- followed by the last eight digits of
Date.now() followed by the padded random component. -/
def genRequestId (nowMs : Nat) (r : ℚ) : String :=
  "IDR-" ++ sliceLastEight (toString nowMs)
    ++ jsPadStart (toString (randomComponent r)) 4 '0'

/-! Reachable cattle states: every state a cattle document can be driven to
from the documented initial registration state through the controller
operations (which enforce the findOne preconditions), plus the owner and
history mutation performed by an accepted transfer. -/

/-- States of a cattle document reachable through the controllers. -/
inductive ReachableCattle : Cattle → Prop
  | registered (owner : Nat) (imgs : ImageCounts) (loc tempId : String) :
      ReachableCattle (Cattle.registered owner imgs loc tempId)
  | forward {c c2 : Cattle} (role : Role) (region : String)
      (adminId now : Nat) :
      ReachableCattle c →
      forwardCattleToMAdminCtrl role region (some c) adminId now =
        Except.ok c2 →
      ReachableCattle c2
  | deny {c c2 : Cattle} (role : Role) (region : String) (adminId : Nat)
      (reason : String) (now : Nat) :
      ReachableCattle c →
      denyCattleByRegionalAdminCtrl role region (some c) adminId reason now =
        Except.ok c2 →
      ReachableCattle c2
  | approve {c c2 : Cattle} (role : Role) (region : String)
      (adminId now : Nat) :
      ReachableCattle c →
      approveCattleByMAdminCtrl role region (some c) adminId now =
        Except.ok c2 →
      ReachableCattle c2
  | reject {c c2 : Cattle} (role : Role) (region : String) (adminId : Nat)
      (reason : String) (now : Nat) :
      ReachableCattle c →
      rejectCattleByMAdminCtrl role region (some c) adminId reason now =
        Except.ok c2 →
      ReachableCattle c2
  | archiveStep {c c2 : Cattle} (userId now : Nat) :
      ReachableCattle c →
      archiveCattleCtrl (some c) userId now = Except.ok c2 →
      ReachableCattle c2
  | restoreStep {c c2 : Cattle} (userId : Nat) :
      ReachableCattle c →
      restoreCattleCtrl (some c) userId = Except.ok c2 →
      ReachableCattle c2
  | transferAccepted {c : Cattle} (newOwner tid : Nat) :
      ReachableCattle c →
      ReachableCattle
        { c with
          transferHistory := c.transferHistory ++ [tid]
          owner := newOwner }

/-- The lifecycle and verification statuses stay coupled: an active
document is approved, and an approved document is active or archived. -/
def StatusInv (c : Cattle) : Prop :=
  (c.status = CattleStatus.active →
    c.verificationStatus = VerificationStatus.approved) ∧
  (c.verificationStatus = VerificationStatus.approved →
    c.status = CattleStatus.active ∨ c.status = CattleStatus.archive)

/-- A terminal verification state. -/
def VerificationStatus.IsTerminal (s : VerificationStatus) : Prop :=
  s = VerificationStatus.approved ∨ s = VerificationStatus.rejected ∨
    s = VerificationStatus.denied_by_regional

/-! Concrete sample documents used to evaluate the embedded operations. -/

/-- An approved, active cattle document owned by user 10 in Texas. -/
def sampleActiveCattle : Cattle :=
  { Cattle.registered 10 fullImageSet "Texas" "TEMP3" with
      status := CattleStatus.active
      verificationStatus := VerificationStatus.approved
      temporaryId := none }

/-- A cattle document in the terminal approved verification state. -/
def terminalSampleCattle : Cattle :=
  { Cattle.registered 10 fullImageSet "Texas" "TEMP1" with
      status := CattleStatus.active
      verificationStatus := VerificationStatus.approved }

/-- A pending-review cattle document located in Ohio. -/
def ohioCattle : Cattle := Cattle.registered 10 fullImageSet "Ohio" "TEMP2"

/-- Store for the transfer-accept runs: a pending transfer of cattle 1 from
user 10 to user 20, the cattle document owned by 10, and both user cattle
arrays. -/
def c1Store : TransferStore :=
  { transfer := newPendingTransfer 1 10 20
    cattleDoc := some sampleActiveCattle
    holdings := [(10, [1]), (20, [])] }

/-- Store whose transfer references a cattle id with no document behind
it. -/
def c9Store : TransferStore :=
  { transfer := newPendingTransfer 1 10 20
    cattleDoc := none
    holdings := [(10, [2]), (20, [])] }

/-- An identification request currently being processed. -/
def c4Request : IdRequest :=
  { user := 7
    status := IdStatus.processing
    startedAt := some 1000
    completedAt := none
    processedBy := some 3
    timeTaken := none
    resultFound := false
    resultCattle := none
    resultCattleId := none
    resultConfidence := none
    resultMessage := none
    identifiedAt := none
    adminNotes := none }

/-- Freshly registered cattle for the reachability chain. -/
def cexRegistered : Cattle := Cattle.registered 10 fullImageSet "Texas" "TEMP0"

/-- The chain cattle after the regional forward. -/
def cexForwarded : Cattle := cexRegistered.forwardToMAdmin 2 1001

/-- The chain cattle after the final approval. -/
def cexApproved : Cattle := cexForwarded.approve 3 1002

/-- The chain cattle after the owner archives it. -/
def cexArchived : Cattle := cexApproved.archive 10 1003

/-! Theorems. -/

/-- Claim C8: Archive followed by Restore returns the lifecycle status to
active when the verification status is approved and to transit otherwise,
and clears the archive bookkeeping fields archivedAt and archivedBy. -/
theorem archive_restore_roundtrip (c : Cattle) (userId now : Nat) :
    ((c.archive userId now).restore).status =
      (if c.verificationStatus = VerificationStatus.approved then
        CattleStatus.active else CattleStatus.transit) ∧
    ((c.archive userId now).restore).archivedAt = none ∧
    ((c.archive userId now).restore).archivedBy = none :=
  ⟨rfl, rfl, rfl⟩

/-- Claim C5: registerCattle passes the literal verification status pending
to Cattle.create, a value outside the workflow schema enum, so the create
is rejected by enum validation and no successful registration can yield a
document in the pending_regional_review state the schema documents; the
turnaround deadline computation itself does match submission time plus 48
hours by default. -/
theorem register_invalid_verification_enum :
    registerCattleVerificationOutcome = Except.error "ValidationError" ∧
    ¬ registerCattleVerificationStatusValue = "pending_regional_review" ∧
    mongooseEnumValidates cattleVerificationStatusEnum
      "pending_regional_review" = true ∧
    turnaroundDeadline 1000 none = 1000 + 48 * 60 * 60 * 1000 := by
  decide

/-- Claim C1: TransferRequest.accept is not all-or-nothing.  With the
failure injected at the write that prunes the old owner cattle array, the
already committed cattle save leaves the database split: the cattle
document names the new owner while the old owner holdings still list the
cattle, the new owner holdings do not, and the transfer document itself is
still pending on disk. -/
theorem accept_midway_failure_splits_ownership :
    (acceptRun (some 1) c1Store 99 500).thrown = true ∧
    ((acceptRun (some 1) c1Store 99 500).store.cattleDoc.map Cattle.owner) =
      some 20 ∧
    ((acceptRun (some 1) c1Store 99 500).store.cattleDoc.map
      Cattle.transferHistory) = some [99] ∧
    (acceptRun (some 1) c1Store 99 500).store.holdings =
      [(10, [1]), (20, [])] ∧
    (acceptRun (some 1) c1Store 99 500).store.transfer.status =
      TransferStatus.pending := by
  decide

/-- Claim C9: when the cattle referenced by a pending transfer does not
resolve, accept still succeeds, marking the transfer accepted with a
response and completion timestamp, and no cattle document or holdings entry
is touched. -/
theorem accept_with_missing_cattle (st : TransferStore) (tid now : Nat)
    (hp : st.transfer.status = TransferStatus.pending)
    (hc : st.cattleDoc = none) :
    (acceptRun none st tid now).thrown = false ∧
    (acceptRun none st tid now).store.cattleDoc = none ∧
    (acceptRun none st tid now).store.holdings = st.holdings ∧
    (acceptRun none st tid now).store.transfer.status =
      TransferStatus.accepted ∧
    (acceptRun none st tid now).store.transfer.respondedAt = some now ∧
    (acceptRun none st tid now).store.transfer.completedAt = some now := by
  simp [acceptRun, hp, hc]

/-- Witness for accept_with_missing_cattle at the concrete store c9Store. -/
theorem accept_with_missing_cattle_witness :
    (acceptRun none c9Store 7 500).thrown = false ∧
    (acceptRun none c9Store 7 500).store.cattleDoc = none ∧
    (acceptRun none c9Store 7 500).store.holdings = c9Store.holdings ∧
    (acceptRun none c9Store 7 500).store.transfer.status =
      TransferStatus.accepted ∧
    (acceptRun none c9Store 7 500).store.transfer.respondedAt = some 500 ∧
    (acceptRun none c9Store 7 500).store.transfer.completedAt = some 500 :=
  accept_with_missing_cattle c9Store 7 500 rfl rfl

/-- Claim C3 (amended): once a cattle document is in a terminal
verification state, each of the four verification operations misses its
findOne precondition filter and the handler responds 404 Not Found, so the
record is left unchanged; no ConflictError is involved. -/
theorem terminal_state_ops_rejected_404 (c : Cattle) (role : Role)
    (region : String) (adminId now : Nat) (reason : String)
    (hterm : c.verificationStatus.IsTerminal)
    (hreason : ¬ reason = "") :
    forwardCattleToMAdminCtrl role region (some c) adminId now =
      Except.error 404 ∧
    denyCattleByRegionalAdminCtrl role region (some c) adminId reason now =
      Except.error 404 ∧
    approveCattleByMAdminCtrl role region (some c) adminId now =
      Except.error 404 ∧
    rejectCattleByMAdminCtrl role region (some c) adminId reason now =
      Except.error 404 := by
  obtain h1 | h1 | h1 := hterm <;>
    simp [forwardCattleToMAdminCtrl, denyCattleByRegionalAdminCtrl,
      approveCattleByMAdminCtrl, rejectCattleByMAdminCtrl, h1, hreason]

/-- Witness for terminal_state_ops_rejected_404 on an approved document. -/
theorem terminal_state_ops_rejected_404_witness :
    forwardCattleToMAdminCtrl Role.regional_admin "Texas"
      (some terminalSampleCattle) 2 1000 = Except.error 404 ∧
    denyCattleByRegionalAdminCtrl Role.regional_admin "Texas"
      (some terminalSampleCattle) 2 "why" 1000 = Except.error 404 ∧
    approveCattleByMAdminCtrl Role.regional_admin "Texas"
      (some terminalSampleCattle) 2 1000 = Except.error 404 ∧
    rejectCattleByMAdminCtrl Role.regional_admin "Texas"
      (some terminalSampleCattle) 2 "why" 1000 = Except.error 404 :=
  terminal_state_ops_rejected_404 terminalSampleCattle Role.regional_admin
    "Texas" 2 1000 "why" (Or.inl rfl) (by decide)

/-- Claim C3 (counterexample): a Forward call on an approved cattle fails
with the 404 Not Found response, not with a ConflictError (409), refuting
the claim as stated. -/
theorem terminal_forward_not_conflict_cex :
    forwardCattleToMAdminCtrl Role.regional_admin "Texas"
      (some terminalSampleCattle) 2 1000 = Except.error 404 ∧
    ¬ forwardCattleToMAdminCtrl Role.regional_admin "Texas"
        (some terminalSampleCattle) 2 1000 = Except.error 409 := by
  decide

/-- Claim C7: a region-scoped administrator acting on a cattle located
outside the assigned region receives a 404 Not Found response from every
mutating verification operation (not an authorization error), and a global
administrator is not subject to the region filter, acting on any record
whose state precondition holds. -/
theorem region_scope_and_global_access (c : Cattle) (region : String)
    (adminId now : Nat) (reason : String)
    (hloc : ¬ c.locationState = region) (hreason : ¬ reason = "") :
    forwardCattleToMAdminCtrl Role.regional_admin region (some c) adminId
      now = Except.error 404 ∧
    denyCattleByRegionalAdminCtrl Role.regional_admin region (some c)
      adminId reason now = Except.error 404 ∧
    approveCattleByMAdminCtrl Role.m_admin region (some c) adminId now =
      Except.error 404 ∧
    rejectCattleByMAdminCtrl Role.m_admin region (some c) adminId reason
      now = Except.error 404 ∧
    (c.verificationStatus = VerificationStatus.pending_regional_review →
      forwardCattleToMAdminCtrl Role.super_admin region (some c) adminId
        now = Except.ok (c.forwardToMAdmin adminId now)) ∧
    (c.verificationStatus = VerificationStatus.pending_regional_review →
      denyCattleByRegionalAdminCtrl Role.super_admin region (some c)
        adminId reason now =
          Except.ok (c.denyByRegionalAdmin adminId reason now)) ∧
    (c.verificationStatus = VerificationStatus.forwarded_to_m_admin →
      approveCattleByMAdminCtrl Role.super_admin region (some c) adminId
        now = Except.ok (c.approve adminId now)) ∧
    (c.verificationStatus = VerificationStatus.forwarded_to_m_admin →
      rejectCattleByMAdminCtrl Role.super_admin region (some c) adminId
        reason now = Except.ok (c.reject adminId reason now)) := by
  refine ⟨?_, ?_, ?_, ?_, ?_, ?_, ?_, ?_⟩ <;>
    simp [forwardCattleToMAdminCtrl, denyCattleByRegionalAdminCtrl,
      approveCattleByMAdminCtrl, rejectCattleByMAdminCtrl, hloc, hreason]

/-- Witness for region_scope_and_global_access: a Texas-scoped
administrator against a cattle located in Ohio. -/
theorem region_scope_and_global_access_witness :
    forwardCattleToMAdminCtrl Role.regional_admin "Texas" (some ohioCattle)
      2 1000 = Except.error 404 ∧
    denyCattleByRegionalAdminCtrl Role.regional_admin "Texas"
      (some ohioCattle) 2 "why" 1000 = Except.error 404 ∧
    approveCattleByMAdminCtrl Role.m_admin "Texas" (some ohioCattle) 2
      1000 = Except.error 404 ∧
    rejectCattleByMAdminCtrl Role.m_admin "Texas" (some ohioCattle) 2 "why"
      1000 = Except.error 404 ∧
    (ohioCattle.verificationStatus =
        VerificationStatus.pending_regional_review →
      forwardCattleToMAdminCtrl Role.super_admin "Texas" (some ohioCattle)
        2 1000 = Except.ok (ohioCattle.forwardToMAdmin 2 1000)) ∧
    (ohioCattle.verificationStatus =
        VerificationStatus.pending_regional_review →
      denyCattleByRegionalAdminCtrl Role.super_admin "Texas"
        (some ohioCattle) 2 "why" 1000 =
          Except.ok (ohioCattle.denyByRegionalAdmin 2 "why" 1000)) ∧
    (ohioCattle.verificationStatus =
        VerificationStatus.forwarded_to_m_admin →
      approveCattleByMAdminCtrl Role.super_admin "Texas" (some ohioCattle)
        2 1000 = Except.ok (ohioCattle.approve 2 1000)) ∧
    (ohioCattle.verificationStatus =
        VerificationStatus.forwarded_to_m_admin →
      rejectCattleByMAdminCtrl Role.super_admin "Texas" (some ohioCattle) 2
        "why" 1000 = Except.ok (ohioCattle.reject 2 "why" 1000)) :=
  region_scope_and_global_access ohioCattle "Texas" 2 1000 "why"
    (by decide) (by decide)

/-- Claim C10: the random component Math.floor(Math.random() + 10000) is
the constant 10000, so every generated request id is IDR- followed by the
last eight digits of the timestamp followed by 10000, and two requests
created in the same millisecond receive identical ids. -/
theorem requestId_random_component_constant (nowMs : Nat) (r1 r2 : ℚ)
    (h1 : 0 ≤ r1) (h2 : r1 < 1) (h3 : 0 ≤ r2) (h4 : r2 < 1) :
    genRequestId nowMs r1 =
      "IDR-" ++ sliceLastEight (toString nowMs) ++ "10000" ∧
    genRequestId nowMs r1 = genRequestId nowMs r2 := by
  have comp : ∀ r : ℚ, 0 ≤ r → r < 1 → randomComponent r = 10000 := by
    intro r hr hr2
    unfold randomComponent
    rw [Int.floor_eq_iff]
    constructor
    · push_cast
      linarith
    · push_cast
      linarith
  have e1 : jsPadStart (toString (randomComponent r1)) 4 '0' = "10000" := by
    rw [comp r1 h1 h2]
    rfl
  have e2 : jsPadStart (toString (randomComponent r2)) 4 '0' = "10000" := by
    rw [comp r2 h3 h4]
    rfl
  unfold genRequestId
  rw [e1, e2]
  exact ⟨rfl, rfl⟩

/-- Witness for requestId_random_component_constant at a concrete
millisecond timestamp and two distinct random draws. -/
theorem requestId_random_component_constant_witness :
    genRequestId 123456789012 (1 / 2) =
      "IDR-" ++ sliceLastEight (toString (123456789012 : Nat)) ++ "10000" ∧
    genRequestId 123456789012 (1 / 2) = genRequestId 123456789012 (1 / 4) :=
  requestId_random_component_constant 123456789012 (1 / 2) (1 / 4)
    (by norm_num) (by norm_num) (by norm_num) (by norm_num)

/-- Appending one transfer adds its contribution to the pending count. -/
theorem countPendingFor_append (store : List Transfer) (t : Transfer)
    (cid : Nat) :
    countPendingFor (store ++ [t]) cid =
      countPendingFor store cid +
        (if t.cattle = cid ∧ t.status = TransferStatus.pending then 1
          else 0) := by
  unfold countPendingFor
  rw [List.filter_append, List.length_append]
  by_cases h : t.cattle = cid ∧ t.status = TransferStatus.pending <;>
    simp [h]

/-- When the pre-query finds no pending transfer for the cattle, the stored
pending count is zero. -/
theorem countPendingFor_eq_zero (store : List Transfer) (cid : Nat)
    (h : pendingExistsFor store cid = false) :
    countPendingFor store cid = 0 := by
  unfold pendingExistsFor at h
  unfold countPendingFor
  rw [List.length_eq_zero, List.filter_eq_nil_iff]
  intro t ht
  rw [List.any_eq_false] at h
  exact h t ht

/-- Claim C2 (amended): under sequential execution the pre-query guard
works: when the other preconditions hold and a pending transfer for the
cattle already exists, initiate responds 400 (the source has no
ConflictError class), and any successful initiate preserves the
at-most-one-pending bound. -/
theorem initiate_pre_query_guard (store : List Transfer) (cattleRefId : Nat)
    (c : Cattle) (userId toOwnerId : Nat)
    (howner : c.owner = userId) (hactive : c.status = CattleStatus.active) :
    (pendingExistsFor store cattleRefId = true →
      initiateCattleTransfer store cattleRefId (some c) userId toOwnerId
        true = Except.error 400) ∧
    invAfterInitiate
      (initiateCattleTransfer store cattleRefId (some c) userId toOwnerId
        true) cattleRefId := by
  constructor
  · intro hpend
    simp [initiateCattleTransfer, howner, hactive, hpend]
  · by_cases hpend : pendingExistsFor store cattleRefId
    · simp [initiateCattleTransfer, howner, hactive, hpend, invAfterInitiate]
    · by_cases hself : userId = toOwnerId
      · simp [initiateCattleTransfer, howner, hactive, hpend, hself,
          invAfterInitiate]
      · have hz := countPendingFor_eq_zero store cattleRefId
          (by simpa using hpend)
        simp only [initiateCattleTransfer, howner, hactive, hpend, hself,
          invAfterInitiate, if_true, if_false, and_self, ite_true,
          ite_false, Bool.false_eq_true, if_neg, not_false_eq_true]
        simp [hpend, hself, countPendingFor_append, hz, newPendingTransfer]

/-- Witness for initiate_pre_query_guard: a second initiate for cattle 1
while one pending transfer already exists. -/
theorem initiate_pre_query_guard_witness :
    (pendingExistsFor [newPendingTransfer 1 10 20] 1 = true →
      initiateCattleTransfer [newPendingTransfer 1 10 20] 1
        (some sampleActiveCattle) 10 30 true = Except.error 400) ∧
    invAfterInitiate
      (initiateCattleTransfer [newPendingTransfer 1 10 20] 1
        (some sampleActiveCattle) 10 30 true) 1 :=
  initiate_pre_query_guard [newPendingTransfer 1 10 20] 1
    sampleActiveCattle 10 30 rfl rfl

/-- Claim C2 (counterexample): the guard is only a non-atomic pre-query.
Interleaving two concurrent initiations of the same cattle so that both
pre-queries run before either insert leaves two pending transfer requests
for cattle 1 in the store, and the sequential rejection is a 400 response,
not a ConflictError (409). -/
theorem interleaved_initiate_two_pending_cex :
    countPendingFor
      (runRace 1 10 20 10 30 [true, false, true, false]
        { store := [], pcA := InitPC.atQuery, pcB := InitPC.atQuery }).store
      1 = 2 ∧
    initiateCattleTransfer [newPendingTransfer 1 10 20] 1
      (some sampleActiveCattle) 10 30 true = Except.error 400 ∧
    ¬ initiateCattleTransfer [newPendingTransfer 1 10 20] 1
        (some sampleActiveCattle) 10 30 true = Except.error 409 := by
  decide

/-- Claim C4 (amended): when found is true and a cattle id is supplied that
does not resolve, the complete handler responds 404 and the request
document is unchanged. -/
theorem complete_unresolved_reference_404 (coll : List (Nat × String))
    (rq : IdRequest) (cid : Nat) (msg notesParam : Option String)
    (conf : Option Nat) (now : Nat)
    (hstatus : rq.status = IdStatus.pending ∨
      rq.status = IdStatus.processing)
    (hmiss : lookupCattle coll cid = none) :
    completeIdentificationRequestCtrl coll (some true) (some cid) msg
      notesParam conf (some rq) now =
      { response := Except.error 404, request := some rq } := by
  simp only [completeIdentificationRequestCtrl]
  rw [if_pos hstatus]
  simp [hmiss]

/-- Witness for complete_unresolved_reference_404: completing a processing
request with found true and the unresolvable cattle id 2. -/
theorem complete_unresolved_reference_404_witness :
    completeIdentificationRequestCtrl [(1, "C100")] (some true) (some 2)
      none none none (some c4Request) 5000 =
      { response := Except.error 404, request := some c4Request } :=
  complete_unresolved_reference_404 [(1, "C100")] c4Request 2 none none
    none 5000 (Or.inr rfl) rfl

/-- Claim C4 (counterexample): completing with found true and no cattle id
at all skips the existence check: the request is persisted as completed
with result.found true and no cattle reference, and the handler then fails
with a 500 response after the save, refuting the stated invariant. -/
theorem complete_found_without_reference_cex :
    ((completeIdentificationRequestCtrl [(1, "C100")] (some true) none none
        none none (some c4Request) 5000).request.map
      (fun rq => (rq.status, rq.resultFound, rq.resultCattle))) =
      some (IdStatus.completed, true, none) ∧
    (completeIdentificationRequestCtrl [(1, "C100")] (some true) none none
        none none (some c4Request) 5000).response = Except.error 500 := by
  decide

/-- The approve method always leaves a state satisfying the coupling
invariant: approved and active. -/
theorem statusInv_approve (c : Cattle) (adminId now : Nat) :
    StatusInv (c.approve adminId now) :=
  ⟨fun _ => rfl, fun _ => Or.inl rfl⟩

/-- The archive method always leaves a state satisfying the coupling
invariant. -/
theorem statusInv_archive (c : Cattle) (userId now : Nat) :
    StatusInv (c.archive userId now) :=
  ⟨(fun h => nomatch h), fun _ => Or.inr rfl⟩

/-- The restore method always leaves a state satisfying the coupling
invariant: it re-derives the lifecycle from the verification status. -/
theorem statusInv_restore (c : Cattle) : StatusInv c.restore := by
  unfold StatusInv Cattle.restore
  by_cases h : c.verificationStatus = VerificationStatus.approved <;>
    simp [h]

/-- A successful controller forward preserves the coupling invariant. -/
theorem statusInv_forwardCtrl {c c2 : Cattle} {role : Role}
    {region : String} {adminId now : Nat} (ih : StatusInv c)
    (heq : forwardCattleToMAdminCtrl role region (some c) adminId now =
      Except.ok c2) : StatusInv c2 := by
  simp only [forwardCattleToMAdminCtrl] at heq
  split at heq
  · next hcond =>
    injection heq with h3
    subst h3
    constructor
    · intro hact
      have h5 := ih.1 hact
      rw [hcond.1] at h5
      simp at h5
    · intro happ
      simp [Cattle.forwardToMAdmin] at happ
  · simp at heq

/-- A successful controller denial preserves the coupling invariant. -/
theorem statusInv_denyCtrl {c c2 : Cattle} {role : Role} {region : String}
    {adminId : Nat} {reason : String} {now : Nat} (ih : StatusInv c)
    (heq : denyCattleByRegionalAdminCtrl role region (some c) adminId
      reason now = Except.ok c2) : StatusInv c2 := by
  simp only [denyCattleByRegionalAdminCtrl] at heq
  split at heq
  · simp at heq
  · split at heq
    · next hcond =>
      injection heq with h3
      subst h3
      constructor
      · intro hact
        have h5 := ih.1 hact
        rw [hcond.1] at h5
        simp at h5
      · intro happ
        simp [Cattle.denyByRegionalAdmin] at happ
    · simp at heq

/-- A successful controller approval preserves the coupling invariant. -/
theorem statusInv_approveCtrl {c c2 : Cattle} {role : Role}
    {region : String} {adminId now : Nat}
    (heq : approveCattleByMAdminCtrl role region (some c) adminId now =
      Except.ok c2) : StatusInv c2 := by
  simp only [approveCattleByMAdminCtrl] at heq
  split at heq
  · injection heq with h3
    subst h3
    exact statusInv_approve c adminId now
  · simp at heq

/-- A successful controller rejection preserves the coupling invariant. -/
theorem statusInv_rejectCtrl {c c2 : Cattle} {role : Role}
    {region : String} {adminId : Nat} {reason : String} {now : Nat}
    (ih : StatusInv c)
    (heq : rejectCattleByMAdminCtrl role region (some c) adminId reason
      now = Except.ok c2) : StatusInv c2 := by
  simp only [rejectCattleByMAdminCtrl] at heq
  split at heq
  · simp at heq
  · split at heq
    · next hcond =>
      injection heq with h3
      subst h3
      constructor
      · intro hact
        have h5 := ih.1 hact
        rw [hcond.1] at h5
        simp at h5
      · intro happ
        simp [Cattle.reject] at happ
    · simp at heq

/-- A successful controller archive preserves the coupling invariant. -/
theorem statusInv_archiveCtrl {c c2 : Cattle} {userId now : Nat}
    (heq : archiveCattleCtrl (some c) userId now = Except.ok c2) :
    StatusInv c2 := by
  simp only [archiveCattleCtrl] at heq
  split at heq
  · split at heq
    · simp at heq
    · injection heq with h3
      subst h3
      exact statusInv_archive c userId now
  · simp at heq

/-- A successful controller restore preserves the coupling invariant. -/
theorem statusInv_restoreCtrl {c c2 : Cattle} {userId : Nat}
    (heq : restoreCattleCtrl (some c) userId = Except.ok c2) :
    StatusInv c2 := by
  simp only [restoreCattleCtrl] at heq
  split at heq
  · split at heq
    · injection heq with h3
      subst h3
      exact statusInv_restore c
    · simp at heq
  · simp at heq

/-- Claim C6 (amended): across every reachable state, the lifecycle and
verification statuses are coupled one way: an active document is approved,
and an approved document is active or archived (archiving an approved
document keeps it approved); the image counts are not constrained by the
workflow model. -/
theorem reachable_status_coupling (c : Cattle) (h : ReachableCattle c) :
    StatusInv c := by
  induction h with
  | registered owner imgs loc tempId =>
    constructor
    · intro h2
      simp [Cattle.registered] at h2
    · intro h2
      simp [Cattle.registered] at h2
  | forward role region adminId now hr heq ih =>
    exact statusInv_forwardCtrl ih heq
  | deny role region adminId reason now hr heq ih =>
    exact statusInv_denyCtrl ih heq
  | approve role region adminId now hr heq ih =>
    exact statusInv_approveCtrl heq
  | reject role region adminId reason now hr heq ih =>
    exact statusInv_rejectCtrl ih heq
  | archiveStep userId now hr heq ih =>
    exact statusInv_archiveCtrl heq
  | restoreStep userId hr heq ih =>
    exact statusInv_restoreCtrl heq
  | transferAccepted newOwner tid hr ih =>
    exact ih

/-- Witness for reachable_status_coupling at the registration state. -/
theorem reachable_status_coupling_witness :
    StatusInv (Cattle.registered 10 fullImageSet "Texas" "TEMPW") :=
  reachable_status_coupling _
    (ReachableCattle.registered 10 fullImageSet "Texas" "TEMPW")

/-- Claim C6 (counterexample): the stated equivalence fails on a reachable
state: registering with a full image set, forwarding, approving and then
archiving yields a document whose verification status is approved while
its lifecycle status is archive, not active. -/
theorem approved_archived_cex :
    ¬ (∀ c : Cattle, ReachableCattle c →
        (c.verificationStatus = VerificationStatus.approved ↔
          (c.status = CattleStatus.active ∧ c.images.total = 14 ∧
            c.images = fullImageSet))) := by
  intro hall
  have h0 : ReachableCattle cexRegistered :=
    ReachableCattle.registered 10 fullImageSet "Texas" "TEMP0"
  have h1 : ReachableCattle cexForwarded :=
    ReachableCattle.forward Role.regional_admin "Texas" 2 1001 h0
      (by decide)
  have h2 : ReachableCattle cexApproved :=
    ReachableCattle.approve Role.m_admin "Texas" 3 1002 h1 (by decide)
  have h3 : ReachableCattle cexArchived :=
    ReachableCattle.archiveStep 10 1003 h2 (by decide)
  exact absurd ((hall cexArchived h3).mp (by decide)).1 (by decide)

end CattelBackend
